import Mathlib

/-!
Verification development for the load-generation and metrics core of the
inference-benchmark repository.

The embedding follows the Python source files `core/request.py`,
`core/metrics.py` and `core/benchmark.py`:

* pure computations become Lean functions over `ℚ` (wall-clock seconds),
  `ℕ` (counts) and `String`;
* the effectful boundary of the streaming HTTP executor is represented by
  explicit inputs: the HTTP result (transport exception, or status/body
  plus the list of stream lines with the clock value observed when each
  line is handled) and the clock value at stream end;
* the JSON library call `json.loads` followed by the
  `chunk['choices'][0].get('text', '')` extraction is kept abstract as a
  `decode` parameter returning `Except Unit (Option String)`:
  `.error ()` models a `json.JSONDecodeError` (caught by the
  `except ... pass` in the source), `.ok none` a well-formed fragment
  without a usable `choices[0]` entry, and `.ok (some t)` a fragment
  carrying the token text `t` (possibly empty);
* fallible code returns `Except`/`Option`, and the arrival scheduler
  returns the list of descriptors it released together with the error that
  stopped it, so that "failed before releasing anything" is expressible.
-/

namespace InferenceBenchmark

/-- Mirror of `RequestFuncInput` (core/request.py, lines 15-28): the
per-request input record.  The optional multimodal payload is omitted
(it is never read by the executor).  -/
structure RequestFuncInput where
  model : String
  prompt : String
  api_url : String
  prompt_len : ℕ
  output_len : ℕ
  logprobs : Option ℕ := none
  best_of : ℕ := 1
  ignore_eos : Bool := false
  model_name : Option String := none
  api_key : Option String := none
deriving Repr, DecidableEq

/-- Mirror of `RequestFuncOutput` (core/request.py, lines 31-45): the
per-request outcome record.  `itl` defaults to the empty list exactly as
`__post_init__` normalises `None` to `[]`.  -/
structure RequestFuncOutput where
  success : Bool
  generated_text : String := ""
  prompt_len : ℕ := 0
  output_tokens : Option ℕ := none
  latency : ℚ := 0
  ttft : ℚ := 0
  itl : List ℚ := []
  error : Option String := none
deriving Repr, DecidableEq

/-! ## Retry policy (`retry_async`, core/request.py lines 48-80)

One attempt of the wrapped coroutine either raises (an exception carrying
a message) or returns a `RequestFuncOutput`; the attempt behaviour is a
function from the attempt index to that result.  The loop state of the
decorator (`attempts`, `last_exception`, the `asyncio.sleep(delay)` calls
between attempts) is made explicit, and the run records how many attempts
were made and how many delays were slept so those claims are stateable. -/

/-- An exception escaping the retry wrapper itself: `args[0]` on an empty
positional-argument tuple raises `IndexError` (core/request.py line 71)
before the `isinstance` test is evaluated. -/
inductive RetryEscape where
  | indexError
deriving Repr, DecidableEq

/-- Result of running the retry wrapper: what the call does (return a
`RequestFuncOutput` or let an exception escape), the number of attempts
made, and the number of `asyncio.sleep(delay)` calls performed. -/
structure RetryRun where
  result : Except RetryEscape RequestFuncOutput
  attemptsMade : ℕ
  sleeps : ℕ
deriving Repr

/-- The `while attempts < max_attempts` loop of `retry_async.wrapper`
(core/request.py lines 61-68), by fuel on the remaining attempts.
Returns `(some output, attempts, sleeps, last)` when some attempt
returned normally, `(none, attempts, sleeps, last)` when every attempt
raised; `last` is the message of the last exception seen.  A delay is
slept after a raising attempt exactly when attempts remain
(`if attempts < max_attempts`). -/
def retryGo (attempt : ℕ → Except String RequestFuncOutput) :
    ℕ → ℕ → ℕ → Option String → (Option RequestFuncOutput × ℕ × ℕ × Option String)
  | 0, made, sleeps, last => (none, made, sleeps, last)
  | remaining + 1, made, sleeps, last =>
    match attempt made with
    | .ok o => (some o, made + 1, sleeps, last)
    | .error e =>
      retryGo attempt remaining (made + 1)
        (if remaining > 0 then sleeps + 1 else sleeps) (some e)

/-- The synthesized failure returned after exhausting all attempts
(core/request.py lines 70-76): `success=False`, the input's prompt
length, and an error message stating the attempt ceiling and the last
exception. -/
def exhaustedOutput (maxAttempts : ℕ) (inp : RequestFuncInput)
    (last : Option String) : RequestFuncOutput :=
  { success := false
    prompt_len := inp.prompt_len
    error := some ("重试" ++ toString maxAttempts ++ "次后失败: " ++ last.getD "None") }

/-- `retry_async(max_attempts, delay)` applied to a wrapped function, on
the attempt behaviour `attempt`.  `argsHead` is the first positional
argument of the call: `some inp` when the `RequestFuncInput` is passed
positionally (the calling convention the exhausted-attempts fallback of
lines 70-77 assumes), `none` when it is passed as a keyword argument, as
at every call site of this repository (core/benchmark.py lines 158, 190,
212-216, 269) — in that case `args` is empty and `args[0]` raises
`IndexError`.  The `raise last_exception` of line 77 is unreachable in
the model because a present first positional argument of the wrapped
executor is always the `RequestFuncInput`. -/
def retry_async (maxAttempts : ℕ) (argsHead : Option RequestFuncInput)
    (attempt : ℕ → Except String RequestFuncOutput) : RetryRun :=
  match retryGo attempt maxAttempts 0 0 none with
  | (some o, made, sleeps, _) => ⟨.ok o, made, sleeps⟩
  | (none, made, sleeps, last) =>
    match argsHead with
    | some inp => ⟨.ok (exhaustedOutput maxAttempts inp last), made, sleeps⟩
    | none => ⟨.error .indexError, made, sleeps⟩

/-! ## Streaming request executor (`openai_request`, core/request.py lines 83-181)

The stream of a 2xx response is a list of events `(line, t)`: the decoded
and not-yet-stripped line together with the clock value `time.time()`
would return while that line is handled (the code only reads the clock
for lines that yield a non-empty token).  `endTime` is the clock value at
`latency = time.time() - start_time` (line 164). -/

/-- Python `str.startswith`, on the code-point sequence of the string. -/
def pyStartsWith (s p : String) : Bool := p.data.isPrefixOf s.data

/-- Python `str.endswith`, on the code-point sequence of the string. -/
def pyEndsWith (s p : String) : Bool := p.data.isSuffixOf s.data

/-- Python `str.strip()`: remove leading and trailing whitespace. -/
def pyStrip (s : String) : String :=
  ⟨((s.data.dropWhile Char.isWhitespace).reverse.dropWhile Char.isWhitespace).reverse⟩

/-- Python `s[n:]`: drop the first `n` code points. -/
def pySliceFrom (s : String) (n : ℕ) : String := ⟨s.data.drop n⟩

/-- The line filter of core/request.py lines 141-143: after `strip`, a
line is submitted to `json.loads` exactly when it starts with the literal
prefix `data: ` and does not end with `[DONE]`; the submitted fragment is
the line with the 6-character prefix removed. -/
def lineFragment (line : String) : Option String :=
  let line := pyStrip line
  if pyStartsWith line "data: " && !(pyEndsWith line "[DONE]") then
    some (pySliceFrom line 6)
  else
    none

/-- Loop state of the stream-reading loop (core/request.py lines 96-100
and 137-138). -/
structure StreamAcc where
  generated_text : String
  output_tokens : ℕ
  ttft : ℚ
  itl : List ℚ
  first_token_received : Bool
  prev_token_time : ℚ
deriving Repr, DecidableEq

/-- Initial stream state: empty text, zero tokens, `ttft = 0`, empty ITL
list, no first token yet, `prev_token_time = start_time` (line 138). -/
def initAcc (start : ℚ) : StreamAcc :=
  ⟨"", 0, 0, [], false, start⟩

/-- One iteration of `async for line in response.content`
(core/request.py lines 140-161).  A line outside the `data: `/`[DONE]`
filter is ignored; a fragment on which `decode` raises
(`json.JSONDecodeError`) is skipped by the `except ... pass`; a fragment
without a non-empty token leaves the state unchanged; a non-empty token
is appended, counted, and timed (TTFT on the first token, an ITL sample
on every later one). -/
def streamStep (decode : String → Except Unit (Option String)) (start : ℚ)
    (acc : StreamAcc) (ev : String × ℚ) : StreamAcc :=
  match lineFragment ev.1 with
  | none => acc
  | some s =>
    match decode s with
    | .error () => acc
    | .ok none => acc
    | .ok (some token) =>
      if token = "" then acc
      else
        let current_time := ev.2
        { generated_text := acc.generated_text ++ token
          output_tokens := acc.output_tokens + 1
          ttft := if acc.first_token_received then acc.ttft else current_time - start
          itl := if acc.first_token_received then
                   acc.itl ++ [current_time - acc.prev_token_time]
                 else acc.itl
          first_token_received := true
          prev_token_time := current_time }

/-- The whole stream-reading loop as a fold over the stream events. -/
def streamFold (decode : String → Except Unit (Option String)) (start : ℚ)
    (events : List (String × ℚ)) : StreamAcc :=
  events.foldl (streamStep decode start) (initAcc start)

/-- The observable behaviour of one HTTP POST: either a transport-level
exception (message as caught by `except Exception as e` at line 179), or
a well-formed response with a status code, a body text, the streamed
lines with their clock values, and the clock value at stream end. -/
inductive HttpResult where
  | exn (msg : String)
  | resp (status : ℕ) (body : String) (events : List (String × ℚ)) (endTime : ℚ)

/-- `openai_request` (core/request.py lines 83-181) on a given HTTP
behaviour, starting at clock value `start`.  A transport exception yields
the failure of lines 179-181; a status other than 200 yields the failure
of lines 132-134 with the error string embedding status and body; a 200
response is folded over its stream and returned as the success record of
lines 169-177. -/
def openai_request (decode : String → Except Unit (Option String))
    (inp : RequestFuncInput) (start : ℚ) (result : HttpResult) :
    RequestFuncOutput :=
  match result with
  | .exn msg => { success := false, error := some msg, prompt_len := inp.prompt_len }
  | .resp status body events endTime =>
    if status ≠ 200 then
      { success := false
        error := some ("HTTP错误: " ++ toString status ++ ", " ++ body)
        prompt_len := inp.prompt_len }
    else
      let acc := streamFold decode start events
      { success := true
        generated_text := acc.generated_text
        prompt_len := inp.prompt_len
        output_tokens := some acc.output_tokens
        latency := endTime - start
        ttft := acc.ttft
        itl := acc.itl }

/-! ## Arrival scheduler (`get_request`, core/request.py lines 194-229)

The request rate is `Option ℚ`: `none` models `float("inf")`, `some r` a
finite rate.  Advancing the generator for the first time runs the
`assert burstiness > 0` and the scale computation
`theta = 1.0 / (request_rate * burstiness)`; only then does it start
yielding descriptors.  The scheduler is modelled as the pair of the list
of descriptors it released and the error (if any) that stopped it, so
"failed before releasing any descriptor" is the statement that the first
component is `[]`. -/

/-- The errors the benchmark-core control flow can raise. -/
inductive BenchError where
  | assertionError (msg : String)
  | zeroDivisionError
  | indexError
  | valueError (msg : String)
deriving Repr, DecidableEq

/-- The initialisation of `get_request` (core/request.py lines 215-216):
the assertion on burstiness, then the unconditional computation of the
Gamma scale parameter.  With an unbounded rate the float product
`inf * burstiness` is `inf` and `1.0 / inf` is `0.0`; with a finite rate
the product is a rational and `1.0 / 0.0` raises `ZeroDivisionError`. -/
def getRequestInit (request_rate : Option ℚ) (burstiness : ℚ) :
    Except BenchError ℚ :=
  if ¬ burstiness > 0 then
    .error (.assertionError ("突发因子必须为正数，但给定了 " ++ toString burstiness))
  else
    match request_rate with
    | none => .ok 0
    | some r =>
      if r * burstiness = 0 then .error .zeroDivisionError
      else .ok (1 / (r * burstiness))

/-- The scheduler as observed by its consumer: the descriptors released
(in input order) and the error that stopped the generator, if any.  The
pacing sleeps between releases cannot fail, so after a successful
initialisation every descriptor is released. -/
def get_request {α : Type} (input_requests : List α)
    (request_rate : Option ℚ) (burstiness : ℚ) :
    List α × Option BenchError :=
  match getRequestInit request_rate burstiness with
  | .error e => ([], some e)
  | .ok _ => (input_requests, none)

/-! ## Benchmark orchestrator (`run_benchmark`, core/benchmark.py lines 73-250)

For the dispatch-ordering claims only the sequence of HTTP requests sent
and the error that aborts the run matter.  The trace model follows the
control flow of `run_benchmark` up to the end of task creation: backend
lookup (lines 131-137), the smoke-test request on `input_requests[0]`
(lines 143-163), the optional profiler-start request (lines 173-193), and
the paced dispatch loop driven by `get_request` (lines 225-248).  The
smoke-test outcome and each paced request are inputs of the model; the
trace records, in order, every HTTP request the run sends. -/

/-- An HTTP request dispatched by the orchestrator, identified by the
prompt of the descriptor it carries (the smoke test and the paced
dispatches all post to the same endpoint). -/
inductive RunEvent where
  | httpRequest (prompt : String)
deriving Repr, DecidableEq

/-- The prefix of `run_benchmark` up to the completion of the dispatch
loop, as the pair of the HTTP-request trace and the error (if any) that
aborted the run.  `smoke` is the outcome the executor returns for the
initial single-prompt test run; `profile` is the `profile` flag
(defaulting to false in the configuration). -/
def runBenchmarkTrace (backend : String)
    (input_requests : List RequestFuncInput)
    (request_rate : Option ℚ) (burstiness : ℚ)
    (smoke : RequestFuncOutput) (profile : Bool) :
    List RunEvent × Option BenchError :=
  if backend ∉ ["openai", "vllm"] then
    ([], some (.valueError ("未知后端: " ++ backend)))
  else
    match input_requests with
    | [] => ([], some .indexError)
    | r0 :: _ =>
      let smokeTrace := [RunEvent.httpRequest r0.prompt]
      if ¬ smoke.success then
        (smokeTrace,
         some (.valueError ("初始测试运行失败 - 请确保基准测试参数正确指定。错误: "
           ++ (smoke.error.getD "None"))))
      else
        let afterSmoke :=
          smokeTrace ++ (if profile then [RunEvent.httpRequest r0.prompt] else [])
        let (released, schedErr) := get_request input_requests request_rate burstiness
        (afterSmoke ++ released.map (fun r => RunEvent.httpRequest r.prompt), schedErr)

/-! ## Metrics aggregator (`calculate_metrics`, core/metrics.py lines 48-166)

The tokenizer is abstracted as the token-count function
`tok : String → ℕ`, modelling
`len(tokenizer(text, add_special_tokens=False).input_ids)`.
The per-output loop of lines 82-107 is a fold over the outcomes zipped
with the prompt-token lengths `input_requests[i][1]`. -/

/-- Accumulator of the aggregation loop (core/metrics.py lines 72-80). -/
structure MetricsAcc where
  actual_output_lens : List ℕ
  total_input : ℕ
  completed : ℕ
  itls : List ℚ
  tpots : List ℚ
  all_tpots : List ℚ
  ttfts : List ℚ
  e2els : List ℚ
deriving Repr, DecidableEq

/-- The empty accumulator. -/
def emptyAcc : MetricsAcc := ⟨[], 0, 0, [], [], [], [], []⟩

/-- The output-token count used for a successful outcome
(core/metrics.py lines 84-92): the executor-reported count when present,
otherwise the tokenizer estimate on the generated text. -/
def outputLen (tok : String → ℕ) (o : RequestFuncOutput) : ℕ :=
  match o.output_tokens with
  | some n => n
  | none => tok o.generated_text

/-- The TPOT value of a successful outcome (core/metrics.py lines 95-100):
`(latency - ttft) / (output_len - 1)` when more than one output token,
else 0. -/
def tpotOf (tok : String → ℕ) (o : RequestFuncOutput) : ℚ :=
  if outputLen tok o > 1 then
    (o.latency - o.ttft) / ((outputLen tok o : ℚ) - 1)
  else 0

/-- One iteration of the aggregation loop (core/metrics.py lines 82-107)
on the outcome `o` whose prompt-token length (`input_requests[i][1]`) is
`inLen`.  A failed outcome only records an actual output length of 0. -/
def metricsStep (tok : String → ℕ) (acc : MetricsAcc)
    (p : RequestFuncOutput × ℕ) : MetricsAcc :=
  let o := p.1
  if o.success then
    let output_len := outputLen tok o
    { actual_output_lens := acc.actual_output_lens ++ [output_len]
      total_input := acc.total_input + p.2
      completed := acc.completed + 1
      itls := acc.itls ++ o.itl
      tpots := acc.tpots ++ (if output_len > 1 then [tpotOf tok o] else [])
      all_tpots := acc.all_tpots ++ [tpotOf tok o]
      ttfts := acc.ttfts ++ [o.ttft]
      e2els := acc.e2els ++ [o.latency] }
  else
    { acc with actual_output_lens := acc.actual_output_lens ++ [0] }

/-- The whole aggregation loop over the outcomes paired with their prompt
lengths. -/
def metricsLoop (tok : String → ℕ) (pairs : List (RequestFuncOutput × ℕ)) :
    MetricsAcc :=
  pairs.foldl (metricsStep tok) emptyAcc

/-- Python's `zip(*lists)`: the rows of the column lists, truncated to
the shortest column; `zip()` of no lists yields no rows. -/
def zipStar {α : Type} : List (List α) → List (List α)
  | [] => []
  | [l] => l.map (fun x => [x])
  | l :: l' :: ls =>
    (l.zip (zipStar (l' :: ls))).map (fun p => p.1 :: p.2)

/-- The per-metric SLO columns and thresholds (core/metrics.py lines
110-124): for each of the keys `ttft`, `tpot`, `e2el` present in the
goodput configuration, in that order, the corresponding sample column and
the threshold converted from milliseconds to seconds.  The configuration
is an association list modelling the Python dict (first binding wins). -/
def validMetricsSlos (cfg : List (String × ℚ)) (acc : MetricsAcc) :
    List (List ℚ) × List ℚ :=
  let vm := (if (cfg.lookup "ttft").isSome then [acc.ttfts] else [])
         ++ (if (cfg.lookup "tpot").isSome then [acc.all_tpots] else [])
         ++ (if (cfg.lookup "e2el").isSome then [acc.e2els] else [])
  let slo := (match cfg.lookup "ttft" with | some v => [v / 1000] | none => [])
          ++ (match cfg.lookup "tpot" with | some v => [v / 1000] | none => [])
          ++ (match cfg.lookup "e2el" with | some v => [v / 1000] | none => [])
  (vm, slo)

/-- The goodput counting loop (core/metrics.py lines 109-129): when the
configuration dict is non-empty, a request row is good when every zipped
(threshold, sample) pair satisfies `sample ≤ threshold`
(`all([s >= r ...])`). -/
def goodCompleted (cfg : List (String × ℚ)) (acc : MetricsAcc) : ℕ :=
  if cfg = [] then 0
  else
    (zipStar (validMetricsSlos cfg acc).1).countP
      (fun row => ((validMetricsSlos cfg acc).2.zip row).all
        (fun p => decide (p.2 ≤ p.1)))

/-- `np.mean(l or [0])`: the mean over the samples, defaulting to a
single zero sample when the list is empty. -/
def npMeanOrZero (l : List ℚ) : ℚ :=
  let l := if l = [] then [0] else l
  l.sum / l.length

/-- The fields of `BenchmarkMetrics` (core/metrics.py lines 18-45) that
this development reasons about; the median/std/percentile fields reduce
to numpy calls on the same sample lists and carry no further structure
relevant to the verified claims, so only the mean of each distribution
is embedded. -/
structure BenchmarkMetrics where
  completed : ℕ
  total_input : ℕ
  total_output : ℕ
  request_throughput : ℚ
  request_goodput : ℚ
  output_throughput : ℚ
  total_token_throughput : ℚ
  mean_ttft_ms : ℚ
  mean_tpot_ms : ℚ
  mean_itl_ms : ℚ
  mean_e2el_ms : ℚ
deriving Repr, DecidableEq

/-- `calculate_metrics` (core/metrics.py lines 48-166): aggregation loop,
goodput counting, and the metric record construction of lines 136-164.
Returns the metrics together with the actual output lengths, as the
source does. -/
def calculate_metrics (tok : String → ℕ)
    (pairs : List (RequestFuncOutput × ℕ)) (dur_s : ℚ)
    (cfg : List (String × ℚ)) : BenchmarkMetrics × List ℕ :=
  let acc := metricsLoop tok pairs
  let good := goodCompleted cfg acc
  (⟨acc.completed,
    acc.total_input,
    acc.actual_output_lens.sum,
    (acc.completed : ℚ) / dur_s,
    (good : ℚ) / dur_s,
    (acc.actual_output_lens.sum : ℚ) / dur_s,
    ((acc.total_input : ℚ) + (acc.actual_output_lens.sum : ℚ)) / dur_s,
    npMeanOrZero acc.ttfts * 1000,
    npMeanOrZero acc.tpots * 1000,
    npMeanOrZero acc.itls * 1000,
    npMeanOrZero acc.e2els * 1000⟩,
   acc.actual_output_lens)

/-! ## Derived descriptions of the aggregation loop

Closed-form descriptions of the lists the aggregation loop accumulates,
used to state and prove the metric claims. -/

/-- The successful outcomes, in order, with their prompt lengths. -/
def succOutcomes (pairs : List (RequestFuncOutput × ℕ)) :
    List (RequestFuncOutput × ℕ) :=
  pairs.filter (fun p => p.1.success)

/-- The TPOT sample distribution: one sample per successful outcome with
more than one output token. -/
def tpotsList (tok : String → ℕ) (pairs : List (RequestFuncOutput × ℕ)) :
    List ℚ :=
  ((succOutcomes pairs).filter (fun p => 1 < outputLen tok p.1)).map
    (fun p => tpotOf tok p.1)

/-- The per-request TPOT list used for goodput: one value per successful
outcome, zero included. -/
def allTpotsList (tok : String → ℕ) (pairs : List (RequestFuncOutput × ℕ)) :
    List ℚ :=
  (succOutcomes pairs).map (fun p => tpotOf tok p.1)

/-- The TTFT samples of the successful outcomes. -/
def ttftsList (pairs : List (RequestFuncOutput × ℕ)) : List ℚ :=
  (succOutcomes pairs).map (fun p => p.1.ttft)

/-- The end-to-end latency samples of the successful outcomes. -/
def e2elsList (pairs : List (RequestFuncOutput × ℕ)) : List ℚ :=
  (succOutcomes pairs).map (fun p => p.1.latency)

/-- The actual output lengths recorded per outcome (zero for failures). -/
def outLensList (tok : String → ℕ) (pairs : List (RequestFuncOutput × ℕ)) :
    List ℕ :=
  pairs.map (fun p => if p.1.success then outputLen tok p.1 else 0)

/-- The per-request goodput predicate the SLO columns encode: every
configured metric among ttft, tpot and e2el is within its threshold
(milliseconds converted to seconds); an absent metric imposes no
constraint. -/
def isGoodReq (cfg : List (String × ℚ)) (tok : String → ℕ)
    (o : RequestFuncOutput) : Bool :=
  (match cfg.lookup "ttft" with
   | some v => decide (o.ttft ≤ v / 1000)
   | none => true) &&
  (match cfg.lookup "tpot" with
   | some v => decide (tpotOf tok o ≤ v / 1000)
   | none => true) &&
  (match cfg.lookup "e2el" with
   | some v => decide (o.latency ≤ v / 1000)
   | none => true)

/-- The configured (metric function, threshold-in-seconds) selectors, in
the fixed ttft, tpot, e2el order of `validMetricsSlos`. -/
def cfgFts (cfg : List (String × ℚ)) (tok : String → ℕ) :
    List (((RequestFuncOutput × ℕ) → ℚ) × ℚ) :=
  (match cfg.lookup "ttft" with
   | some v => [((fun p => p.1.ttft), v / 1000)]
   | none => []) ++
  (match cfg.lookup "tpot" with
   | some v => [((fun p => tpotOf tok p.1), v / 1000)]
   | none => []) ++
  (match cfg.lookup "e2el" with
   | some v => [((fun p => p.1.latency), v / 1000)]
   | none => [])

/-- Whether the benchmark run ended in the scheduler's assertion failure
on the burstiness factor. -/
def isAssertionFailure : Option BenchError → Bool
  | some (.assertionError _) => true
  | _ => false

/-- A stream line that cannot contribute a token: it is filtered out, its
fragment fails to parse, or it parses without a non-empty token text. -/
def noTokenLine (decode : String → Except Unit (Option String))
    (line : String) : Bool :=
  match lineFragment line with
  | none => true
  | some s =>
    match decode s with
    | .error () => true
    | .ok none => true
    | .ok (some t) => t == ""

/-! ## Loop characterisation lemmas -/

lemma foldl_metricsStep (tok : String → ℕ)
    (pairs : List (RequestFuncOutput × ℕ)) : ∀ acc : MetricsAcc,
    pairs.foldl (metricsStep tok) acc =
      ⟨acc.actual_output_lens ++ outLensList tok pairs,
       acc.total_input + ((succOutcomes pairs).map (fun p => p.2)).sum,
       acc.completed + (succOutcomes pairs).length,
       acc.itls ++ ((succOutcomes pairs).map (fun p => p.1.itl)).flatten,
       acc.tpots ++ tpotsList tok pairs,
       acc.all_tpots ++ allTpotsList tok pairs,
       acc.ttfts ++ ttftsList pairs,
       acc.e2els ++ e2elsList pairs⟩ := by
  induction pairs with
  | nil =>
    intro acc
    simp [outLensList, succOutcomes, tpotsList, allTpotsList, ttftsList, e2elsList]
  | cons p rest ih =>
    intro acc
    rw [List.foldl_cons, ih]
    by_cases hs : p.1.success
    · by_cases ho : 1 < outputLen tok p.1 <;>
        simp [metricsStep, hs, ho, outLensList, succOutcomes, tpotsList,
          allTpotsList, ttftsList, e2elsList, List.filter_cons,
          List.append_assoc, Nat.add_assoc, Nat.add_comm, Nat.add_left_comm]
    · simp [metricsStep, hs, outLensList, succOutcomes, tpotsList,
        allTpotsList, ttftsList, e2elsList, List.filter_cons,
        List.append_assoc]

lemma metricsLoop_eq (tok : String → ℕ) (pairs : List (RequestFuncOutput × ℕ)) :
    metricsLoop tok pairs =
      ⟨outLensList tok pairs,
       ((succOutcomes pairs).map (fun p => p.2)).sum,
       (succOutcomes pairs).length,
       ((succOutcomes pairs).map (fun p => p.1.itl)).flatten,
       tpotsList tok pairs,
       allTpotsList tok pairs,
       ttftsList pairs,
       e2elsList pairs⟩ := by
  rw [metricsLoop, foldl_metricsStep]
  simp [emptyAcc]

lemma zipStar_maps {α β : Type} (fs : List (α → β)) (l : List α)
    (h : fs ≠ []) :
    zipStar (fs.map (fun f => l.map f)) =
      l.map (fun x => fs.map (fun f => f x)) := by
  induction fs with
  | nil => exact absurd rfl h
  | cons f fs ih =>
    cases fs with
    | nil => simp [zipStar]
    | cons g gs =>
      have ihg := ih (by simp)
      simp only [List.map_cons] at ihg ⊢
      rw [zipStar, ihg]
      simp [List.zip_map', List.map_map, Function.comp]

lemma zipStar_length_le {α : Type} :
    ∀ (ls : List (List α)) (n : ℕ), (∀ l ∈ ls, l.length = n) →
      (zipStar ls).length ≤ n
  | [], _, _ => by simp [zipStar]
  | [l], n, h => by simp [zipStar, h l (by simp)]
  | l :: m :: t, n, h => by
    have hl := h l (by simp)
    simp only [zipStar, List.length_map, List.length_zip]
    omega

lemma all_map_pair {γ : Type} (fts : List ((γ → ℚ) × ℚ)) (x : γ) :
    (fts.map (fun ft => (ft.2, ft.1 x))).all (fun p => decide (p.2 ≤ p.1))
      = fts.all (fun ft => decide (ft.1 x ≤ ft.2)) := by
  induction fts with
  | nil => rfl
  | cons a t iht => simp only [List.map_cons, List.all_cons, iht]

lemma zipStar_countP {γ : Type} (fts : List ((γ → ℚ) × ℚ)) (l : List γ)
    (h : fts ≠ []) :
    (zipStar (fts.map (fun ft => l.map ft.1))).countP
        (fun row => ((fts.map Prod.snd).zip row).all
          (fun p => decide (p.2 ≤ p.1)))
      = l.countP (fun x => fts.all (fun ft => decide (ft.1 x ≤ ft.2))) := by
  have h1 : fts.map (fun ft => l.map ft.1)
      = (fts.map Prod.fst).map (fun f => l.map f) := by
    simp [List.map_map]
  rw [h1, zipStar_maps _ _ (by simpa using h), List.countP_map]
  refine List.countP_congr ?_
  intro x _
  simp only [Function.comp, List.map_map]
  rw [List.zip_map']
  simp [all_map_pair]

lemma validMetricsSlos_eq (cfg : List (String × ℚ)) (tok : String → ℕ)
    (pairs : List (RequestFuncOutput × ℕ)) :
    validMetricsSlos cfg (metricsLoop tok pairs) =
      ((cfgFts cfg tok).map (fun ft => (succOutcomes pairs).map ft.1),
       (cfgFts cfg tok).map Prod.snd) := by
  rcases h1 : cfg.lookup "ttft" with _ | v1 <;>
    rcases h2 : cfg.lookup "tpot" with _ | v2 <;>
      rcases h3 : cfg.lookup "e2el" with _ | v3 <;>
        simp [validMetricsSlos, cfgFts, h1, h2, h3, metricsLoop_eq,
          ttftsList, allTpotsList, e2elsList]

lemma cfgFts_ne_nil (cfg : List (String × ℚ)) (tok : String → ℕ)
    (hne : cfg ≠ [])
    (hkeys : ∀ p ∈ cfg, p.1 = "ttft" ∨ p.1 = "tpot" ∨ p.1 = "e2el") :
    cfgFts cfg tok ≠ [] := by
  cases cfg with
  | nil => exact absurd rfl hne
  | cons p rest =>
    rcases hkeys p (by simp) with hk | hk | hk
    · have h1 : (p :: rest).lookup "ttft" = some p.2 := by
        rw [← hk]; simp [List.lookup]
      simp [cfgFts, h1]
    · have h2 : (p :: rest).lookup "tpot" = some p.2 := by
        rw [← hk]; simp [List.lookup]
      rcases h1 : (p :: rest).lookup "ttft" with _ | v1 <;>
        simp [cfgFts, h1, h2]
    · have h3 : (p :: rest).lookup "e2el" = some p.2 := by
        rw [← hk]; simp [List.lookup]
      rcases h1 : (p :: rest).lookup "ttft" with _ | v1 <;>
        rcases h2 : (p :: rest).lookup "tpot" with _ | v2 <;>
          simp [cfgFts, h1, h2, h3]

lemma cfgFts_all_eq_isGoodReq (cfg : List (String × ℚ)) (tok : String → ℕ)
    (x : RequestFuncOutput × ℕ) :
    (cfgFts cfg tok).all (fun ft => decide (ft.1 x ≤ ft.2))
      = isGoodReq cfg tok x.1 := by
  rcases h1 : cfg.lookup "ttft" with _ | v1 <;>
    rcases h2 : cfg.lookup "tpot" with _ | v2 <;>
      rcases h3 : cfg.lookup "e2el" with _ | v3 <;>
        simp [cfgFts, isGoodReq, h1, h2, h3, Bool.and_assoc]

/-! ## Stream-loop lemmas -/

lemma streamStep_filtered (decode : String → Except Unit (Option String))
    (start : ℚ) (acc : StreamAcc) (line : String) (t : ℚ)
    (h : lineFragment line = none) :
    streamStep decode start acc (line, t) = acc := by
  simp [streamStep, h]

lemma streamStep_parse_error (decode : String → Except Unit (Option String))
    (start : ℚ) (acc : StreamAcc) (line : String) (t : ℚ) (s : String)
    (h : lineFragment line = some s) (hd : decode s = .error ()) :
    streamStep decode start acc (line, t) = acc := by
  simp [streamStep, h, hd]

lemma streamStep_no_token (decode : String → Except Unit (Option String))
    (start : ℚ) (acc : StreamAcc) (line : String) (t : ℚ)
    (h : noTokenLine decode line = true) :
    streamStep decode start acc (line, t) = acc := by
  rcases hf : lineFragment line with _ | s
  · exact streamStep_filtered decode start acc line t hf
  · rcases hd : decode s with e | o
    · cases e
      exact streamStep_parse_error decode start acc line t s hf hd
    · rcases o with _ | tkn
      · simp [streamStep, hf, hd]
      · have htk : tkn = "" := by
          have h2 := h
          unfold noTokenLine at h2
          rw [hf] at h2
          simpa [hd] using h2
        simp [streamStep, hf, hd, htk]

lemma streamFold_no_token (decode : String → Except Unit (Option String))
    (start : ℚ) (events : List (String × ℚ))
    (h : ∀ ev ∈ events, noTokenLine decode ev.1 = true) :
    streamFold decode start events = initAcc start := by
  unfold streamFold
  induction events with
  | nil => rfl
  | cons ev rest ih =>
    rw [List.foldl_cons, streamStep_no_token decode start _ ev.1 ev.2
      (h ev (by simp))]
    exact ih (fun e he => h e (by simp [he]))

/-- The invariant the stream loop maintains on its state, given that the
per-token clock readings stay between `start` and `endTime`. -/
def StreamInv (start endTime : ℚ) (acc : StreamAcc) : Prop :=
  0 ≤ acc.ttft ∧ start + acc.ttft ≤ endTime ∧
  (acc.first_token_received = false →
    acc.ttft = 0 ∧ acc.itl = [] ∧ acc.output_tokens = 0) ∧
  (acc.first_token_received = true →
    acc.itl.length + 1 = acc.output_tokens)

lemma streamStep_inv (decode : String → Except Unit (Option String))
    (start endTime : ℚ) (acc : StreamAcc) (ev : String × ℚ)
    (hts : start ≤ ev.2 ∧ ev.2 ≤ endTime)
    (hacc : StreamInv start endTime acc) :
    StreamInv start endTime (streamStep decode start acc ev) := by
  obtain ⟨line, t⟩ := ev
  replace hts : start ≤ t ∧ t ≤ endTime := hts
  obtain ⟨h0, hle, hfst, hsnd⟩ := hacc
  rcases hf : lineFragment line with _ | s
  · rw [streamStep_filtered decode start acc line t hf]
    exact ⟨h0, hle, hfst, hsnd⟩
  · rcases hd : decode s with e | o
    · cases e
      rw [streamStep_parse_error decode start acc line t s hf hd]
      exact ⟨h0, hle, hfst, hsnd⟩
    · rcases o with _ | tkn
      · have hid : streamStep decode start acc (line, t) = acc := by
          simp [streamStep, hf, hd]
        rw [hid]
        exact ⟨h0, hle, hfst, hsnd⟩
      · by_cases htk : tkn = ""
        · have hid : streamStep decode start acc (line, t) = acc := by
            simp [streamStep, hf, hd, htk]
          rw [hid]
          exact ⟨h0, hle, hfst, hsnd⟩
        · have hstep : streamStep decode start acc (line, t) =
              { generated_text := acc.generated_text ++ tkn,
                output_tokens := acc.output_tokens + 1,
                ttft := if acc.first_token_received then acc.ttft
                        else t - start,
                itl := if acc.first_token_received then
                         acc.itl ++ [t - acc.prev_token_time]
                       else acc.itl,
                first_token_received := true,
                prev_token_time := t } := by
            simp [streamStep, hf, hd, htk]
          rw [hstep]
          rcases hb : acc.first_token_received with _ | _
          · obtain ⟨ht0, hitl, htok⟩ := hfst hb
            refine ⟨?_, ?_, ?_, ?_⟩
            · simp only [StreamAcc.ttft, hb, Bool.false_eq_true, if_false]
              linarith [hts.1]
            · simp only [StreamAcc.ttft, hb, Bool.false_eq_true, if_false]
              linarith [hts.2]
            · intro hcontra
              exact absurd hcontra (by simp)
            · intro _
              simp [hb, hitl, htok]
          · refine ⟨?_, ?_, ?_, ?_⟩
            · simpa [hb] using h0
            · simpa [hb] using hle
            · intro hcontra
              exact absurd hcontra (by simp)
            · intro _
              have hlen := hsnd hb
              simp [hb]
              omega

lemma streamFoldGo_inv (decode : String → Except Unit (Option String))
    (start endTime : ℚ) :
    ∀ (events : List (String × ℚ)) (acc : StreamAcc),
      (∀ ev ∈ events, start ≤ ev.2 ∧ ev.2 ≤ endTime) →
      StreamInv start endTime acc →
      StreamInv start endTime (events.foldl (streamStep decode start) acc)
  | [], _, _, hacc => hacc
  | ev :: rest, acc, hts, hacc => by
    rw [List.foldl_cons]
    exact streamFoldGo_inv decode start endTime rest
      (streamStep decode start acc ev)
      (fun e he => hts e (by simp [he]))
      (streamStep_inv decode start endTime acc ev (hts ev (by simp)) hacc)

lemma streamFold_inv (decode : String → Except Unit (Option String))
    (start endTime : ℚ) (events : List (String × ℚ))
    (hts : ∀ ev ∈ events, start ≤ ev.2 ∧ ev.2 ≤ endTime)
    (hse : start ≤ endTime) :
    StreamInv start endTime (streamFold decode start events) := by
  have hinit : StreamInv start endTime (initAcc start) := by
    refine ⟨le_refl 0, by simpa [initAcc] using hse,
      fun _ => ⟨rfl, rfl, rfl⟩, ?_⟩
    intro h
    simp [initAcc] at h
  exact streamFoldGo_inv decode start endTime events (initAcc start) hts hinit

/-! ## Sample data used by concrete instantiations -/

/-- A concrete request input. -/
def sampleInput : RequestFuncInput :=
  { model := "m", prompt := "p", api_url := "http://localhost/v1/completions",
    prompt_len := 3, output_len := 16 }

/-- A decode behaviour whose fragments carry their own text as token. -/
def passthroughDecode : String → Except Unit (Option String) :=
  fun s => .ok (some s)

/-- A decode behaviour on which the fragment `notjson` raises
`json.JSONDecodeError` and every other fragment parses to its own text. -/
def failingDecode : String → Except Unit (Option String) :=
  fun s => if s = "notjson" then .error () else .ok (some s)

/-- A successful smoke-test outcome. -/
def smokeOK : RequestFuncOutput := { success := true }

/-! ## C3: non-2xx handling -/

/-- C3 is refuted as stated: the executor treats exactly status 200 as
success, not the whole 2xx class.  Status 201 is a 2xx status, yet the
call terminates with `success=false` instead of proceeding to stream
reading. -/
theorem non2xx_claim_counterexample :
    (200 ≤ 201 ∧ 201 < 300) ∧
    (openai_request passthroughDecode sampleInput 0
      (.resp 201 "Created" [("data: tok", 1)] 2)).success = false :=
  ⟨by decide, rfl⟩

/-- C3 (amended): every HTTP response with a status other than 200 —
2xx or not — makes the executor return immediately a `RequestFuncOutput`
with `success=false` whose error string embeds the status code and the
response body, and the retry wrapper passes this cleanly-returned failure
through unchanged (no retry at this layer); a response with status
exactly 200 proceeds to stream reading and returns a successful
outcome. -/
theorem status_check_exact_200 (decode : String → Except Unit (Option String))
    (inp : RequestFuncInput) (start : ℚ) (status : ℕ) (body : String)
    (events : List (String × ℚ)) (endTime : ℚ) :
    (status ≠ 200 →
      openai_request decode inp start (.resp status body events endTime) =
        { success := false,
          error := some ("HTTP错误: " ++ toString status ++ ", " ++ body),
          prompt_len := inp.prompt_len } ∧
      retry_async 3 none
          (fun _ => .ok (openai_request decode inp start
            (.resp status body events endTime))) =
        ⟨.ok (openai_request decode inp start
          (.resp status body events endTime)), 1, 0⟩) ∧
    (openai_request decode inp start (.resp 200 body events endTime)).success
      = true := by
  constructor
  · intro h
    constructor
    · simp [openai_request, h]
    · simp [retry_async, retryGo]
  · simp [openai_request]

/-- Witness for the amended C3 at status 404. -/
theorem status_check_exact_200_witness :
    (404 ≠ 200) ∧
    openai_request passthroughDecode sampleInput 0
        (.resp 404 "Not Found" [] 1) =
      { success := false,
        error := some ("HTTP错误: " ++ toString 404 ++ ", " ++ "Not Found"),
        prompt_len := sampleInput.prompt_len } :=
  ⟨by decide,
   ((status_check_exact_200 passthroughDecode sampleInput 0 404 "Not Found"
      [] 1).1 (by decide)).1⟩

/-! ## C7: success-outcome invariant -/

/-- C7 (confirmed): on a 200 streaming response whose per-token clock
readings lie between the request start and the stream end, the returned
outcome has `success=true`, `latency ≥ ttft ≥ 0`, and the inter-token
latency count is the output-token count minus one (which is zero when
fewer than two tokens arrived, by truncated subtraction). -/
theorem success_outcome_invariant
    (decode : String → Except Unit (Option String)) (inp : RequestFuncInput)
    (start endTime : ℚ) (body : String) (events : List (String × ℚ))
    (hts : ∀ ev ∈ events, start ≤ ev.2 ∧ ev.2 ≤ endTime)
    (hse : start ≤ endTime) :
    (openai_request decode inp start (.resp 200 body events endTime)).success
        = true ∧
    0 ≤ (openai_request decode inp start (.resp 200 body events endTime)).ttft ∧
    (openai_request decode inp start (.resp 200 body events endTime)).ttft
      ≤ (openai_request decode inp start (.resp 200 body events endTime)).latency ∧
    (openai_request decode inp start (.resp 200 body events endTime)).itl.length
      = ((openai_request decode inp start
          (.resp 200 body events endTime)).output_tokens.getD 0) - 1 := by
  have hinv := streamFold_inv decode start endTime events hts hse
  obtain ⟨h0, hle, hfst, hsnd⟩ := hinv
  have hopen : openai_request decode inp start (.resp 200 body events endTime)
      = { success := true,
          generated_text := (streamFold decode start events).generated_text,
          prompt_len := inp.prompt_len,
          output_tokens := some (streamFold decode start events).output_tokens,
          latency := endTime - start,
          ttft := (streamFold decode start events).ttft,
          itl := (streamFold decode start events).itl } := by
    simp [openai_request]
  rw [hopen]
  refine ⟨rfl, h0, by simp; linarith, ?_⟩
  rcases hb : (streamFold decode start events).first_token_received with _ | _
  · obtain ⟨_, hitl, htok⟩ := hfst hb
    simp [hitl, htok]
  · have := hsnd hb
    simp
    omega

/-- Witness for C7 on a concrete three-line stream with two tokens. -/
theorem success_outcome_invariant_witness :
    (∀ ev ∈ [("data: hello", (1 : ℚ)), ("junk", 2), ("data: world", 3)],
      (0 : ℚ) ≤ ev.2 ∧ ev.2 ≤ 4) ∧ (0 : ℚ) ≤ 4 ∧
    (openai_request passthroughDecode sampleInput 0
      (.resp 200 "" [("data: hello", 1), ("junk", 2), ("data: world", 3)] 4)).ttft
      ≤ (openai_request passthroughDecode sampleInput 0
        (.resp 200 "" [("data: hello", 1), ("junk", 2), ("data: world", 3)] 4)).latency :=
  ⟨by decide, by decide,
   (success_outcome_invariant passthroughDecode sampleInput 0 4 ""
     [("data: hello", 1), ("junk", 2), ("data: world", 3)]
     (by decide) (by decide)).2.2.1⟩

/-! ## C8: stream-line filtering -/

/-- C8 is refuted as stated: the source skips any line ending in
`[DONE]`, not only the exact sentinel line.  The line `data: 1 [DONE]`
begins with `data: ` and is not the sentinel, yet it is not submitted to
the JSON parser. -/
theorem sentinel_filter_counterexample :
    pyStartsWith "data: 1 [DONE]" "data: " = true ∧
    "data: 1 [DONE]" ≠ "data: [DONE]" ∧
    lineFragment "data: 1 [DONE]" = none :=
  ⟨by decide, by decide, by decide⟩

/-- C8 (amended): after stripping, exactly those lines that begin with
the literal prefix `data: ` and do not end with `[DONE]` are parsed as
JSON fragments; a filtered-out line leaves the stream state unchanged; a
line whose fragment is malformed JSON is skipped without effect, without
aborting the stream (the fold over the remaining lines is unchanged) and
without failing the request. -/
theorem stream_line_filter (decode : String → Except Unit (Option String))
    (inp : RequestFuncInput) (start : ℚ) (line : String) (t : ℚ)
    (acc : StreamAcc) (s : String) (pre post : List (String × ℚ))
    (body : String) (endTime : ℚ) :
    ((lineFragment line).isSome
      = (pyStartsWith (pyStrip line) "data: "
          && !(pyEndsWith (pyStrip line) "[DONE]"))) ∧
    (lineFragment line = none →
      streamStep decode start acc (line, t) = acc) ∧
    (lineFragment line = some s → decode s = .error () →
      streamStep decode start acc (line, t) = acc) ∧
    (lineFragment line = some s → decode s = .error () →
      streamFold decode start (pre ++ (line, t) :: post)
        = streamFold decode start (pre ++ post)) ∧
    (lineFragment line = some s → decode s = .error () →
      (openai_request decode inp start
        (.resp 200 body (pre ++ (line, t) :: post) endTime)).success = true) := by
  refine ⟨?_, ?_, ?_, ?_, ?_⟩
  · unfold lineFragment
    by_cases h : pyStartsWith (pyStrip line) "data: "
        && !(pyEndsWith (pyStrip line) "[DONE]") <;> simp [h]
  · exact streamStep_filtered decode start acc line t
  · exact streamStep_parse_error decode start acc line t s
  · intro h hd
    unfold streamFold
    rw [List.foldl_append, List.foldl_append, List.foldl_cons,
      streamStep_parse_error decode start _ line t s h hd]
  · intro _ _
    simp [openai_request]

/-- Witness for the amended C8: the fragment of `data: notjson` raises in
the JSON parser; the surrounding stream is processed as if the line were
absent and the request succeeds. -/
theorem stream_line_filter_witness :
    lineFragment "data: notjson" = some "notjson" ∧
    failingDecode "notjson" = .error () ∧
    streamFold failingDecode 0
        ([("data: ok", 1)] ++ ("data: notjson", 2) :: [("data: fine", 3)])
      = streamFold failingDecode 0 ([("data: ok", 1)] ++ [("data: fine", 3)]) :=
  ⟨by decide, rfl,
   (stream_line_filter failingDecode sampleInput 0 "data: notjson" 2
     (initAcc 0) "notjson" [("data: ok", 1)] [("data: fine", 3)] "" 4).2.2.2.1
     (by decide) rfl⟩

/-! ## C10: token-free streams succeed -/

/-- C10 is refuted as stated: the claim quantifies over every 2xx
streaming response, but the executor succeeds only at status exactly
200.  A 201 response whose stream yields no parseable token (its only
line is the terminator) returns `success=false`, not the claimed
successful empty outcome. -/
theorem token_free_2xx_counterexample :
    (200 ≤ 201 ∧ 201 < 300) ∧
    noTokenLine passthroughDecode "data: [DONE]" = true ∧
    (openai_request passthroughDecode sampleInput 0
      (.resp 201 "Created" [("data: [DONE]", 1)] 2)).success = false :=
  ⟨by decide, by decide, rfl⟩

/-- C10 (amended): a streaming response with status exactly 200 — the
only status that reaches stream reading — none of whose lines yields a
non-empty token (empty stream, filtered-out, malformed or token-less
lines) produces `success=true`, empty generated text, zero output
tokens, `ttft = 0` and an empty inter-token-latency list: success does
not imply any token was generated. -/
theorem token_free_stream_outcome
    (decode : String → Except Unit (Option String)) (inp : RequestFuncInput)
    (start endTime : ℚ) (body : String) (events : List (String × ℚ))
    (h : ∀ ev ∈ events, noTokenLine decode ev.1 = true) :
    openai_request decode inp start (.resp 200 body events endTime) =
      { success := true, generated_text := "",
        prompt_len := inp.prompt_len, output_tokens := some 0,
        latency := endTime - start, ttft := 0, itl := [] } := by
  have hfold := streamFold_no_token decode start events h
  simp [openai_request, hfold, initAcc]

/-- Witness for C10 on a stream with an empty line, the terminator, a
malformed fragment and an ignored line. -/
theorem token_free_stream_outcome_witness :
    (∀ ev ∈ [("", (0 : ℚ)), ("data: [DONE]", 1), ("data: notjson", 2),
        ("ping", 3)], noTokenLine failingDecode ev.1 = true) ∧
    openai_request failingDecode sampleInput 0
        (.resp 200 ""
          [("", 0), ("data: [DONE]", 1), ("data: notjson", 2), ("ping", 3)] 5) =
      { success := true, generated_text := "",
        prompt_len := sampleInput.prompt_len, output_tokens := some 0,
        latency := 5 - 0, ttft := 0, itl := [] } :=
  ⟨by decide,
   token_free_stream_outcome failingDecode sampleInput 0 5 ""
     [("", 0), ("data: [DONE]", 1), ("data: notjson", 2), ("ping", 3)]
     (by decide)⟩

/-! ## C1: retry policy -/

/-- C1 is refuted as stated for the calling convention this repository
uses: with the request input passed as a keyword argument (as at every
call site), exhausting all attempts makes the wrapper raise an
`IndexError` at `args[0]` instead of returning a failed
`RequestFuncOutput`. -/
theorem retry_kwargs_counterexample :
    (retry_async 3 none (fun _ => .error "connection failure")).result
        = .error .indexError ∧
    (retry_async 3 none (fun _ => .error "connection failure")).attemptsMade
        = 3 :=
  ⟨rfl, rfl⟩

/-- C1 (amended): when every attempt of the wrapped executor raises, the
retry wrapper makes exactly 3 attempts with a delay slept between
consecutive attempts (2 sleeps); if the request input was passed as the
first positional argument it returns a failed `RequestFuncOutput` whose
error message states the attempt count and the last exception, while
under the keyword-argument calling convention used at every call site of
this repository it instead raises an `IndexError`; a cleanly-returned
failed outcome is returned as-is after a single attempt, with no retry
and no delay. -/
theorem retry_policy_behaviour (inp : RequestFuncInput)
    (attempt : ℕ → Except String RequestFuncOutput) (e : ℕ → String)
    (o : RequestFuncOutput) :
    ((∀ i, i < 3 → attempt i = .error (e i)) →
      retry_async 3 (some inp) attempt =
        ⟨.ok { success := false, prompt_len := inp.prompt_len,
               error := some ("重试" ++ toString 3 ++ "次后失败: " ++ e 2) },
         3, 2⟩) ∧
    ((∀ i, i < 3 → attempt i = .error (e i)) →
      retry_async 3 none attempt = ⟨.error .indexError, 3, 2⟩) ∧
    (attempt 0 = .ok o → o.success = false →
      ∀ argsHead, retry_async 3 argsHead attempt = ⟨.ok o, 1, 0⟩) := by
  refine ⟨?_, ?_, ?_⟩
  · intro h
    have h0 := h 0 (by omega)
    have h1 := h 1 (by omega)
    have h2 := h 2 (by omega)
    simp [retry_async, retryGo, h0, h1, h2, exhaustedOutput]
  · intro h
    have h0 := h 0 (by omega)
    have h1 := h 1 (by omega)
    have h2 := h 2 (by omega)
    simp [retry_async, retryGo, h0, h1, h2]
  · intro ha hs argsHead
    simp [retry_async, retryGo, ha]

/-- Witness for the amended C1: a three-failure run and a clean
single-attempt failure passthrough. -/
theorem retry_policy_behaviour_witness :
    retry_async 3 (some sampleInput) (fun i => .error ("E" ++ toString i)) =
      ⟨.ok { success := false, prompt_len := sampleInput.prompt_len,
             error := some ("重试" ++ toString 3 ++ "次后失败: "
               ++ ("E" ++ toString 2)) }, 3, 2⟩ ∧
    retry_async 3 none (fun _ => .ok { success := false }) =
      ⟨.ok { success := false }, 1, 0⟩ :=
  ⟨(retry_policy_behaviour sampleInput (fun i => .error ("E" ++ toString i))
      (fun i => "E" ++ toString i) { success := false }).1 (fun _ _ => rfl),
   (retry_policy_behaviour sampleInput (fun _ => .ok { success := false })
      (fun _ => "") { success := false }).2.2 rfl rfl none⟩

/-! ## C2: burstiness validation ordering -/

/-- C2 is refuted as stated: a run configured with burstiness 0 does
abort with the scheduler's assertion failure, but only after the
smoke-test HTTP request has already been sent — the trace of dispatched
requests is non-empty when the error surfaces. -/
theorem burstiness_zero_counterexample :
    (runBenchmarkTrace "openai" [sampleInput] (some 1) 0 smokeOK false).1
        = [RunEvent.httpRequest "p"] ∧
    isAssertionFailure
        (runBenchmarkTrace "openai" [sampleInput] (some 1) 0 smokeOK false).2
      = true :=
  ⟨rfl, rfl⟩

/-- C2 (amended): a benchmark run configured with burstiness ≤ 0 (in
particular 0) and a passing smoke test aborts with the scheduler's
`AssertionError` when the arrival scheduler is first advanced — before
any paced benchmark request is dispatched, but after the single
smoke-test request has been sent; the error is an assertion failure
rather than a dedicated configuration-error type. -/
theorem burstiness_nonpositive_aborts_after_smoke (inp : RequestFuncInput)
    (rest : List RequestFuncInput) (rate : Option ℚ) (b : ℚ)
    (smoke : RequestFuncOutput) (hb : b ≤ 0) (hs : smoke.success = true) :
    runBenchmarkTrace "openai" (inp :: rest) rate b smoke false =
      ([RunEvent.httpRequest inp.prompt],
       some (.assertionError ("突发因子必须为正数，但给定了 " ++ toString b))) := by
  have hbn : ¬ b > 0 := not_lt.mpr hb
  simp [runBenchmarkTrace, hs, get_request, getRequestInit, hbn]

/-- Witness for the amended C2 at burstiness 0. -/
theorem burstiness_nonpositive_aborts_after_smoke_witness :
    ((0 : ℚ) ≤ 0) ∧ smokeOK.success = true ∧
    runBenchmarkTrace "openai" [sampleInput] none 0 smokeOK false =
      ([RunEvent.httpRequest sampleInput.prompt],
       some (.assertionError ("突发因子必须为正数，但给定了 "
         ++ toString (0 : ℚ)))) :=
  ⟨by decide, rfl,
   burstiness_nonpositive_aborts_after_smoke sampleInput [] none 0 smokeOK
     (by decide) rfl⟩

/-! ## C9: zero request rate -/

/-- C9 (confirmed): with a finite request rate of 0 and positive
burstiness, advancing the arrival scheduler over a non-empty descriptor
list raises `ZeroDivisionError` while computing the scale
`1/(rate × burstiness)`, before any descriptor is released; the scale is
computed unconditionally — an unbounded rate yields scale 0 rather than
skipping the computation. -/
theorem scheduler_zero_rate_division (reqs : List RequestFuncInput) (b : ℚ)
    (hne : reqs ≠ []) (hb : 0 < b) :
    get_request reqs (some 0) b = ([], some .zeroDivisionError) ∧
    getRequestInit none b = .ok 0 := by
  constructor
  · simp [get_request, getRequestInit, hb]
  · simp [getRequestInit, hb]

/-- Witness for C9 on a one-descriptor list with burstiness 1. -/
theorem scheduler_zero_rate_division_witness :
    ([sampleInput] ≠ []) ∧ ((0 : ℚ) < 1) ∧
    get_request [sampleInput] (some 0) 1 = ([], some .zeroDivisionError) :=
  ⟨by decide, by decide,
   (scheduler_zero_rate_division [sampleInput] 1 (by decide) (by decide)).1⟩

/-! ## C4: TPOT definition and distribution membership -/

/-- The tokenizer estimate used in concrete instantiations: the number of
code points of the generated text. -/
def sampleTok : String → ℕ := fun s => s.length

/-- A successful outcome reporting five output tokens. -/
def outcome5 : RequestFuncOutput :=
  { success := true, output_tokens := some 5, latency := 10, ttft := 2 }

/-- A successful outcome reporting a single output token. -/
def outcome1 : RequestFuncOutput :=
  { success := true, output_tokens := some 1, latency := 10, ttft := 2 }

/-- C4 (confirmed): for every successful outcome, TPOT equals
`(latency − ttft)/(outputTokens − 1)` when the output-token count exceeds
1 and exactly 0 otherwise; the TPOT distribution feeding the
mean/median/std/percentile statistics contains exactly the values of
outcomes with more than one token, while the per-request list used for
goodput evaluation contains one value (zeros included) per successful
outcome. -/
theorem tpot_distribution (tok : String → ℕ)
    (pairs : List (RequestFuncOutput × ℕ)) (dur : ℚ)
    (cfg : List (String × ℚ)) (v : ℚ) (o : RequestFuncOutput) :
    (metricsLoop tok pairs).tpots = tpotsList tok pairs ∧
    (metricsLoop tok pairs).all_tpots = allTpotsList tok pairs ∧
    (1 < outputLen tok o →
      tpotOf tok o = (o.latency - o.ttft) / ((outputLen tok o : ℚ) - 1)) ∧
    (¬ 1 < outputLen tok o → tpotOf tok o = 0) ∧
    (calculate_metrics tok pairs dur cfg).1.mean_tpot_ms
      = npMeanOrZero (tpotsList tok pairs) * 1000 ∧
    (validMetricsSlos [("tpot", v)] (metricsLoop tok pairs)).1
      = [allTpotsList tok pairs] := by
  refine ⟨?_, ?_, ?_, ?_, ?_, ?_⟩
  · rw [metricsLoop_eq]
  · rw [metricsLoop_eq]
  · intro h
    simp [tpotOf, h]
  · intro h
    simp [tpotOf, h]
  · simp [calculate_metrics, metricsLoop_eq]
  · rw [metricsLoop_eq]
    rfl

/-- Witness for C4 on outcomes with five and with one output token. -/
theorem tpot_distribution_witness :
    (1 < outputLen sampleTok outcome5) ∧
    tpotOf sampleTok outcome5
      = (outcome5.latency - outcome5.ttft)
        / ((outputLen sampleTok outcome5 : ℚ) - 1) ∧
    (¬ 1 < outputLen sampleTok outcome1) ∧
    tpotOf sampleTok outcome1 = 0 :=
  ⟨by decide,
   (tpot_distribution sampleTok [] 1 [] 0 outcome5).2.2.1 (by decide),
   by decide,
   (tpot_distribution sampleTok [] 1 [] 0 outcome1).2.2.2.1 (by decide)⟩

/-! ## C5: goodput is a conjunction over the configured SLOs -/

/-- C5 (confirmed): with a non-empty goodput configuration drawn from the
keys ttft, tpot, e2el, the goodput counter counts exactly the successful
requests whose every configured metric is within its millisecond
threshold (logical AND across the configured metrics), and the reported
goodput is that count divided by the run duration. -/
theorem goodput_all_slos (tok : String → ℕ)
    (pairs : List (RequestFuncOutput × ℕ)) (dur : ℚ)
    (cfg : List (String × ℚ)) (hne : cfg ≠ [])
    (hkeys : ∀ p ∈ cfg, p.1 = "ttft" ∨ p.1 = "tpot" ∨ p.1 = "e2el")
    (hdur : 0 < dur) :
    goodCompleted cfg (metricsLoop tok pairs)
        = (succOutcomes pairs).countP (fun p => isGoodReq cfg tok p.1) ∧
    (calculate_metrics tok pairs dur cfg).1.request_goodput
        = (goodCompleted cfg (metricsLoop tok pairs) : ℚ) / dur := by
  constructor
  · unfold goodCompleted
    rw [if_neg hne, validMetricsSlos_eq]
    dsimp only
    rw [zipStar_countP _ _ (cfgFts_ne_nil cfg tok hne hkeys)]
    exact List.countP_congr (fun x _ => by
      rw [cfgFts_all_eq_isGoodReq cfg tok x])
  · simp [calculate_metrics]

/-- Witness for C5 with a single ttft SLO over one successful outcome. -/
theorem goodput_all_slos_witness :
    ([("ttft", (100 : ℚ))] ≠ []) ∧
    (∀ p ∈ [("ttft", (100 : ℚ))],
      p.1 = "ttft" ∨ p.1 = "tpot" ∨ p.1 = "e2el") ∧
    ((0 : ℚ) < 1) ∧
    goodCompleted [("ttft", (100 : ℚ))] (metricsLoop sampleTok [(outcome5, 5)])
      = (succOutcomes [(outcome5, 5)]).countP
          (fun p => isGoodReq [("ttft", (100 : ℚ))] sampleTok p.1) :=
  ⟨by decide, by decide, by decide,
   (goodput_all_slos sampleTok [(outcome5, 5)] 1 [("ttft", 100)] (by decide)
     (by decide) (by decide)).1⟩

/-! ## C6: goodput never exceeds throughput -/

/-- C6 (confirmed): for every outcome list, positive duration and goodput
configuration, the count of good requests never exceeds the count of
completed requests, hence the reported goodput never exceeds the
reported request throughput. -/
theorem goodput_le_throughput (tok : String → ℕ)
    (pairs : List (RequestFuncOutput × ℕ)) (dur : ℚ)
    (cfg : List (String × ℚ)) (hdur : 0 < dur) :
    goodCompleted cfg (metricsLoop tok pairs)
        ≤ (metricsLoop tok pairs).completed ∧
    (calculate_metrics tok pairs dur cfg).1.request_goodput
      ≤ (calculate_metrics tok pairs dur cfg).1.request_throughput := by
  have hmain : goodCompleted cfg (metricsLoop tok pairs)
      ≤ (metricsLoop tok pairs).completed := by
    unfold goodCompleted
    by_cases hc : cfg = []
    · simp [hc]
    · rw [if_neg hc, validMetricsSlos_eq]
      dsimp only
      have hlen : ∀ l ∈ (cfgFts cfg tok).map
          (fun ft => (succOutcomes pairs).map ft.1),
          l.length = (succOutcomes pairs).length := by
        intro l hl
        obtain ⟨ft, _, rfl⟩ := List.mem_map.mp hl
        simp
      refine le_trans (List.countP_le_length _)
        (le_trans (zipStar_length_le _ _ hlen) ?_)
      simp [metricsLoop_eq]
  refine ⟨hmain, ?_⟩
  have hg : (calculate_metrics tok pairs dur cfg).1.request_goodput
      = (goodCompleted cfg (metricsLoop tok pairs) : ℚ) / dur := by
    simp [calculate_metrics]
  have ht : (calculate_metrics tok pairs dur cfg).1.request_throughput
      = ((metricsLoop tok pairs).completed : ℚ) / dur := by
    simp [calculate_metrics]
  rw [hg, ht]
  have hcast : ((goodCompleted cfg (metricsLoop tok pairs) : ℚ))
      ≤ ((metricsLoop tok pairs).completed : ℚ) := by exact_mod_cast hmain
  exact div_le_div_of_nonneg_right hcast hdur.le

/-- Witness for C6 at duration 1 with an empty goodput configuration. -/
theorem goodput_le_throughput_witness :
    ((0 : ℚ) < 1) ∧
    goodCompleted [] (metricsLoop sampleTok [(outcome5, 5)])
      ≤ (metricsLoop sampleTok [(outcome5, 5)]).completed :=
  ⟨by decide,
   (goodput_le_throughput sampleTok [(outcome5, 5)] 1 [] (by decide)).1⟩

end InferenceBenchmark
